import Mathlib

/-!
# Camera facade (`bnb::camera_base`)

A shallow embedding of `libraries/c_api/camera/include/camera_base.hpp`.

The class `camera_base` becomes a structure holding its four data members and
every member function becomes a function on that structure.  Member functions
are written in state-passing style: a function returns the value the C++
member function returns together with the object state after the call.  For a
`const` member function the state after the call is the receiver itself.

The callback type `push_frame_cb_t` is kept abstract (a type parameter): no
function defined in the header ever invokes the callback, it is only stored.

`std::atomic_bool` is embedded as `Bool`; the development is sequential and
says nothing about the interleaving of threads.
-/

set_option linter.dupNamespace false

namespace bnb

/-! ## Data model -/

/-- The record `struct camera_device_description` (camera_base.hpp:13-16). -/
structure camera_device_description where
  localized_name : String
  deriving DecidableEq, Repr

/-- The data members of `class camera_base` (camera_base.hpp:58-62), in
declaration order.  `Cb` stands for `push_frame_cb_t`. -/
structure camera_base (Cb : Type) where
  m_push_frame_cb : Cb
  m_is_abort_requested : Bool
  m_connected_devices : List camera_device_description
  m_device_index : Nat
  deriving DecidableEq, Repr

/-- The error kinds of the facade contract. -/
inductive camera_error where
  | NoDevices
  | IndexOutOfRange
  | UnknownDeviceId
  | PermissionDenied
  | BackendFailure
  deriving DecidableEq, Repr

variable {Cb : Type}

/-! ## Member functions defined in the header -/

/-- The constructor `camera_base::camera_base(push_frame_cb_t cb)`
(camera_base.hpp:26-31): the callback is moved into `m_push_frame_cb`, the
abort flag is initialised to `false`, the device index to `0`;
`m_connected_devices` has no initialiser and is default-constructed, that is,
it is the empty vector. -/
def camera_base.camera_base (cb : Cb) : bnb.camera_base Cb :=
  { m_push_frame_cb := cb
    m_is_abort_requested := false
    m_connected_devices := []
    m_device_index := 0 }

/-- The member `camera_base::get_connected_devices() const`
(camera_base.hpp:37-40): returns a copy of `m_connected_devices`; the
receiver is `const`. -/
def camera_base.get_connected_devices (self : bnb.camera_base Cb) :
    List camera_device_description × bnb.camera_base Cb :=
  (self.m_connected_devices, self)

/-- The member `camera_base::get_current_device_index() const`
(camera_base.hpp:42-45): returns `m_device_index`; the receiver is `const`. -/
def camera_base.get_current_device_index (self : bnb.camera_base Cb) :
    Nat × bnb.camera_base Cb :=
  (self.m_device_index, self)

/-- The member `camera_base::abort()` (camera_base.hpp:53-56): stores `true`
into `m_is_abort_requested`. -/
def camera_base.abort (self : bnb.camera_base Cb) : bnb.camera_base Cb :=
  { self with m_is_abort_requested := true }

/-! ## Sequences of facade-implemented operations -/

/-- The operations whose bodies are part of `camera_base` itself. -/
inductive facade_op where
  | abort
  | get_connected_devices
  | get_current_device_index
  deriving DecidableEq, Repr

/-- The state after one facade-implemented operation. -/
def camera_base.step (self : bnb.camera_base Cb) : facade_op → bnb.camera_base Cb
  | facade_op.abort => self.abort
  | facade_op.get_connected_devices => self.get_connected_devices.2
  | facade_op.get_current_device_index => self.get_current_device_index.2

/-- The state after a finite sequence of facade-implemented operations,
executed from left to right. -/
def camera_base.run (self : bnb.camera_base Cb) (ops : List facade_op) : bnb.camera_base Cb :=
  ops.foldl camera_base.step self

/-! ## Parts of the contract whose bodies are outside the header -/

/-- Modelled from the spec: the body of the factory
`create_camera_device(cb, index)`, which the header only declares
(camera_base.hpp:68) and a platform backend defines.  Following the
construction post-conditions of the contract, the base-class constructor runs
first, then the Device List is populated with the descriptions the backend
enumerated on the host (`enumerated`, zero or more) and the Current Device
Index is set to the supplied initial index; the Abort Flag stays cleared. -/
def create_camera_device (enumerated : List camera_device_description) (cb : Cb)
    (index : Nat) : bnb.camera_base Cb :=
  { camera_base.camera_base cb with
    m_connected_devices := enumerated
    m_device_index := index }

/-- Modelled from the spec: the override, in a backend, of the pure virtual
`camera_base::set_device_by_index(uint32_t index)` (camera_base.hpp:33), which
has no body in the header.  Following the contract, an ordinal in range
updates the Current Device Index; an ordinal at or beyond the length of the
Device List is reported to the caller as `IndexOutOfRange` and the state is
left unchanged.  The result pairs the outcome with the state after the call. -/
def camera_base.set_device_by_index (self : bnb.camera_base Cb) (index : Nat) :
    Except camera_error Unit × bnb.camera_base Cb :=
  if index < self.m_connected_devices.length then
    (Except.ok (), { self with m_device_index := index })
  else
    (Except.error camera_error.IndexOutOfRange, self)

/-! ## Example states used by the concrete instances below -/

/-- A host with two cameras. -/
def two_cameras : List camera_device_description :=
  [{ localized_name := "Cam A" }, { localized_name := "Cam B" }]

/-- A facade over `two_cameras` with the second one selected; the callback is
represented by the number `7`. -/
def sample_facade : bnb.camera_base Nat :=
  { m_push_frame_cb := 7
    m_is_abort_requested := false
    m_connected_devices := two_cameras
    m_device_index := 1 }

/-! ## Frame lemmas for sequences of operations -/

theorem camera_base.step_devices (s : bnb.camera_base Cb) (op : facade_op) :
    (s.step op).m_connected_devices = s.m_connected_devices := by
  cases op <;> rfl

theorem camera_base.step_index (s : bnb.camera_base Cb) (op : facade_op) :
    (s.step op).m_device_index = s.m_device_index := by
  cases op <;> rfl

theorem camera_base.step_flag (s : bnb.camera_base Cb) (op : facade_op)
    (h : s.m_is_abort_requested = true) : (s.step op).m_is_abort_requested = true := by
  cases op
  · rfl
  · exact h
  · exact h

theorem camera_base.run_cons (s : bnb.camera_base Cb) (op : facade_op) (ops : List facade_op) :
    s.run (op :: ops) = (s.step op).run ops := rfl

theorem camera_base.run_devices (s : bnb.camera_base Cb) (ops : List facade_op) :
    (s.run ops).m_connected_devices = s.m_connected_devices := by
  induction ops generalizing s with
  | nil => rfl
  | cons op ops ih => rw [camera_base.run_cons, ih, camera_base.step_devices]

theorem camera_base.run_index (s : bnb.camera_base Cb) (ops : List facade_op) :
    (s.run ops).m_device_index = s.m_device_index := by
  induction ops generalizing s with
  | nil => rfl
  | cons op ops ih => rw [camera_base.run_cons, ih, camera_base.step_index]

theorem camera_base.run_flag (s : bnb.camera_base Cb) (ops : List facade_op)
    (h : s.m_is_abort_requested = true) : (s.run ops).m_is_abort_requested = true := by
  induction ops generalizing s with
  | nil => exact h
  | cons op ops ih =>
    rw [camera_base.run_cons]
    exact ih (s.step op) (camera_base.step_flag s op h)

/-! ## The claims -/

/-- C1. Initial state: for every callback `cb` and every initial index `i`
(and whatever list of devices the backend enumerated), the facade returned by
the factory reports `get_current_device_index() = i` before any other
operation is called. -/
theorem initial_index_is_constructor_argument (enumerated : List camera_device_description)
    (cb : Cb) (i : Nat) :
    (create_camera_device enumerated cb i).get_current_device_index.1 = i := rfl

/-- C2, as stated, fails: in the state left by the constructor of
`camera_base` with callback `()`, also after the operations
get_connected_devices, abort, get_current_device_index, the current index is
`0` and the Device List is empty, so the index is not below the length.  The
same holds for the facade the factory returns on a host without cameras when
it is given the initial index `0`. -/
theorem index_validity_fails_after_construction :
    ¬ (((camera_base.camera_base ()).run
          [facade_op.get_connected_devices, facade_op.abort,
            facade_op.get_current_device_index]).get_current_device_index.1
        < ((camera_base.camera_base ()).run
          [facade_op.get_connected_devices, facade_op.abort,
            facade_op.get_current_device_index]).get_connected_devices.1.length) ∧
    ¬ ((create_camera_device [] () 0).get_current_device_index.1
        < (create_camera_device [] () 0).get_connected_devices.1.length) := by
  constructor <;> decide

/-- C2, amended. In every state reached through facade-implemented operations
from a state whose Current Device Index is below the length of its Device
List, the value of `get_current_device_index()` is below the length of
`get_connected_devices()`. -/
theorem index_validity_preserved (s : bnb.camera_base Cb) (ops : List facade_op)
    (h : s.m_device_index < s.m_connected_devices.length) :
    (s.run ops).get_current_device_index.1 < (s.run ops).get_connected_devices.1.length := by
  show (s.run ops).m_device_index < (s.run ops).m_connected_devices.length
  rw [camera_base.run_index, camera_base.run_devices]
  exact h

/-- Instance of C2 (amended): the sample facade, index 1 of two cameras, after
an abort and a query. -/
theorem index_validity_preserved_witness :
    sample_facade.m_device_index < sample_facade.m_connected_devices.length ∧
    (sample_facade.run [facade_op.abort, facade_op.get_current_device_index]).get_current_device_index.1
      < (sample_facade.run [facade_op.abort, facade_op.get_current_device_index]).get_connected_devices.1.length :=
  ⟨by decide, index_validity_preserved sample_facade _ (by decide)⟩

/-- C3. Abort is one-shot: `abort()` sets the Abort Flag from any prior
state; from a state in which the flag is set, every finite sequence of
facade-implemented operations leaves it set; and `abort()` twice yields the
same state as `abort()` once. -/
theorem abort_is_one_shot (s : bnb.camera_base Cb) (ops : List facade_op) :
    s.abort.m_is_abort_requested = true ∧
    (s.m_is_abort_requested = true → (s.run ops).m_is_abort_requested = true) ∧
    (s.abort.run ops).m_is_abort_requested = true ∧
    s.abort.abort = s.abort :=
  ⟨rfl, camera_base.run_flag s ops, camera_base.run_flag s.abort ops rfl, rfl⟩

/-- Instance of C3: the sample facade once aborted, followed by two queries
and a second abort. -/
theorem abort_is_one_shot_witness :
    sample_facade.abort.m_is_abort_requested = true ∧
    (sample_facade.abort.run [facade_op.get_connected_devices,
        facade_op.get_current_device_index, facade_op.abort]).m_is_abort_requested = true :=
  ⟨by decide,
    (abort_is_one_shot sample_facade.abort [facade_op.get_connected_devices,
        facade_op.get_current_device_index, facade_op.abort]).2.1 (by decide)⟩

/-- C4. Enumeration stability: a call of `get_connected_devices` made after
any finite sequence of facade-implemented operations returns the sequence a
call made before them returns: the same list, hence the same length and the
same `localized_name` at every position. -/
theorem enumeration_is_stable (s : bnb.camera_base Cb) (ops : List facade_op) :
    (s.run ops).get_connected_devices.1 = s.get_connected_devices.1 ∧
    (s.run ops).get_connected_devices.1.length = s.get_connected_devices.1.length ∧
    (∀ i : Nat, ((s.run ops).get_connected_devices.1.get? i).map (fun d => d.localized_name)
        = (s.get_connected_devices.1.get? i).map (fun d => d.localized_name)) := by
  have h : (s.run ops).get_connected_devices.1 = s.get_connected_devices.1 :=
    camera_base.run_devices s ops
  refine ⟨h, ?_, ?_⟩
  · rw [h]
  · intro i
    rw [h]

/-- C5. For every callback `cb`, the state produced by the constructor of
`camera_base` has the Abort Flag equal to `false`. -/
theorem abort_flag_cleared_at_construction (cb : Cb) :
    (camera_base.camera_base cb).m_is_abort_requested = false := rfl

/-- C6. Enumerate is a pure snapshot: `get_connected_devices` returns the
stored Device List and leaves the Device List, the Current Device Index, the
Abort Flag and the callback (the whole state) unchanged. -/
theorem get_connected_devices_is_pure_snapshot (s : bnb.camera_base Cb) :
    s.get_connected_devices.1 = s.m_connected_devices ∧
    s.get_connected_devices.2.m_connected_devices = s.m_connected_devices ∧
    s.get_connected_devices.2.m_device_index = s.m_device_index ∧
    s.get_connected_devices.2.m_is_abort_requested = s.m_is_abort_requested ∧
    s.get_connected_devices.2.m_push_frame_cb = s.m_push_frame_cb ∧
    s.get_connected_devices.2 = s :=
  ⟨rfl, rfl, rfl, rfl, rfl, rfl⟩

/-- C7. The query of the current index is side-effect free:
`get_current_device_index` returns the stored Current Device Index, leaves
every field of the state unchanged, and a second call made right after the
first returns the same value. -/
theorem get_current_device_index_is_side_effect_free (s : bnb.camera_base Cb) :
    s.get_current_device_index.1 = s.m_device_index ∧
    s.get_current_device_index.2.m_connected_devices = s.m_connected_devices ∧
    s.get_current_device_index.2.m_device_index = s.m_device_index ∧
    s.get_current_device_index.2.m_is_abort_requested = s.m_is_abort_requested ∧
    s.get_current_device_index.2.m_push_frame_cb = s.m_push_frame_cb ∧
    s.get_current_device_index.2 = s ∧
    s.get_current_device_index.2.get_current_device_index.1 = s.get_current_device_index.1 :=
  ⟨rfl, rfl, rfl, rfl, rfl, rfl, rfl⟩

/-- C8. Index round-trip: for every state and every ordinal `k` below the
length of the Device List, `set_device_by_index(k)` succeeds and afterwards
`get_current_device_index()` is `k`. -/
theorem index_round_trip (s : bnb.camera_base Cb) (k : Nat)
    (h : k < s.m_connected_devices.length) :
    (s.set_device_by_index k).1 = Except.ok () ∧
    (s.set_device_by_index k).2.get_current_device_index.1 = k := by
  unfold camera_base.set_device_by_index
  rw [if_pos h]
  exact ⟨rfl, rfl⟩

/-- Instance of C8: selecting index 0 on the sample facade, whose index was 1. -/
theorem index_round_trip_witness :
    0 < sample_facade.m_connected_devices.length ∧
    (sample_facade.set_device_by_index 0).1 = Except.ok () ∧
    (sample_facade.set_device_by_index 0).2.get_current_device_index.1 = 0 :=
  ⟨by decide, index_round_trip sample_facade 0 (by decide)⟩

/-- C9. Out-of-range rejection: for every state and every ordinal `k` at or
beyond the length of the Device List, `set_device_by_index(k)` reports
`IndexOutOfRange` and the Current Device Index after the call is the one
before it. -/
theorem out_of_range_is_rejected (s : bnb.camera_base Cb) (k : Nat)
    (h : s.m_connected_devices.length ≤ k) :
    (s.set_device_by_index k).1 = Except.error camera_error.IndexOutOfRange ∧
    (s.set_device_by_index k).2.get_current_device_index.1 = s.get_current_device_index.1 := by
  unfold camera_base.set_device_by_index
  rw [if_neg (Nat.not_lt.mpr h)]
  exact ⟨rfl, rfl⟩

/-- Instance of C9: selecting index 2 on the sample facade, which has two
cameras, is rejected and the index stays 1. -/
theorem out_of_range_is_rejected_witness :
    sample_facade.m_connected_devices.length ≤ 2 ∧
    (sample_facade.set_device_by_index 2).1 = Except.error camera_error.IndexOutOfRange ∧
    (sample_facade.set_device_by_index 2).2.get_current_device_index.1 = 1 :=
  ⟨by decide, out_of_range_is_rejected sample_facade 2 (by decide)⟩

/-- C10. Abort touches only the flag: `abort()` leaves the Device List, the
Current Device Index and the callback unchanged, so the state after it is the
state before it with at most the Abort Flag replaced. -/
theorem abort_touches_only_the_flag (s : bnb.camera_base Cb) :
    s.abort.m_connected_devices = s.m_connected_devices ∧
    s.abort.m_device_index = s.m_device_index ∧
    s.abort.m_push_frame_cb = s.m_push_frame_cb ∧
    s.abort = { s with m_is_abort_requested := s.abort.m_is_abort_requested } :=
  ⟨rfl, rfl, rfl, rfl⟩

end bnb
